import Mathlib

/-!
Shallow embedding of `src/components/PWABanner.tsx`: the visibility decision
engine of the PWA install banner.

The component keeps three pieces of transient React state (`showBanner`,
`deferredPrompt`, `isIOS`), reads and writes two browser storage areas
(`localStorage` for the durable installed marker, `sessionStorage` for the
per-session dismissal marker), and reacts to a delayed-reveal timer and two
window events (`beforeinstallprompt`, `appinstalled`). We embed the storage
areas as association lists (most recent write first), the component state as a
structure, and every handler of the source as a state transformer. A step
relation over an event alphabet lets us reason about whole event sequences.
-/

namespace PWABanner

/-- A browser storage area (`localStorage` / `sessionStorage`): an association
list of key/value pairs, most recent write first. -/
abbrev Store := List (String × String)

/-- `storage.getItem(k)`: the most recently written value for `k`, if any. -/
def Store.getItem (st : Store) (k : String) : Option String :=
  match st.find? (fun p => p.1 == k) with
  | some p => some p.2
  | none => none

/-- `storage.setItem(k, v)`: record the write (shadowing earlier writes). -/
def Store.setItem (st : Store) (k v : String) : Store :=
  (k, v) :: st

/-- `const INSTALLED_KEY = 'pwa_installed_v1'` (line 20). -/
def INSTALLED_KEY : String := "pwa_installed_v1"

/-- `const HIDE_SESSION_KEY = 'pwa_hide_session_v1'` (line 21). -/
def HIDE_SESSION_KEY : String := "pwa_hide_session_v1"

/-- The fixed reveal delay in milliseconds: `window.setTimeout(..., 1200)` (line 58). -/
def REVEAL_DELAY_MS : Nat := 1200

/-- State of one page load: the two storage areas, the three `useState` cells
(`showBanner`, `deferredPrompt`, `isIOS`), and the engine resources created by
the mount effect: whether the 1200 ms reveal timer is still pending and whether
the two window event listeners are attached. A captured
`beforeinstallprompt` event handle is identified by a natural number. -/
structure State where
  localStore : Store
  sessionStore : Store
  showBanner : Bool
  deferredPrompt : Option Nat
  isIOS : Bool
  timerPending : Bool
  listenersAttached : Bool
deriving Repr, DecidableEq

/-- The state at the beginning of a page load: the storage areas carry over,
all transient component state is at its initial value and no timer or
listener exists yet. -/
def initState (ls ss : Store) : State :=
  { localStore := ls, sessionStore := ss, showBanner := false,
    deferredPrompt := none, isIOS := false,
    timerPending := false, listenersAttached := false }

/-- `/iphone|ipad|ipod/.test(ua.toLowerCase())` (lines 53-54). Substring
containment is expressed through `String.splitOn`: a nonempty pattern occurs in
`s` iff splitting on it yields more than one piece. -/
def uaIsIosLike (ua : String) : Bool :=
  let l := ua.toLower
  (l.splitOn "iphone").length != 1 ||
  (l.splitOn "ipad").length != 1 ||
  (l.splitOn "ipod").length != 1

/-- The `isStandalone` memo (lines 28-38):
`try { matchMedia('(display-mode: standalone)').matches || navigator.standalone === true } catch { false }`.
Each platform query either throws (`Except.error`) or returns a boolean; the
disjunction short-circuits, and any thrown error makes the whole expression
`false`. -/
def isStandalone (matchMediaStandalone navStandalone : Except Unit Bool) : Bool :=
  match matchMediaStandalone with
  | Except.error _ => false
  | Except.ok true => true
  | Except.ok false =>
    match navStandalone with
    | Except.error _ => false
    | Except.ok b => b

/-- Body of the mount `useEffect` (lines 40-75): four early-return guards
(`enablePWABanner`, standalone, durable installed marker, session dismissal
marker), then `setIsIOS`, schedule the 1200 ms reveal timer and attach the two
window event listeners. -/
def mount (enabled standalone : Bool) (ua : String) (s : State) : State :=
  if !enabled then s
  else if standalone then s
  else if s.localStore.getItem INSTALLED_KEY == some "1" then s
  else if s.sessionStore.getItem HIDE_SESSION_KEY == some "1" then s
  else { s with isIOS := uaIsIosLike ua, timerPending := true,
                listenersAttached := true }

/-- The reveal timer callback `() => setShowBanner(true)` (line 58). It runs
only while the timeout is still pending (a cleared timeout never fires), and a
timeout fires at most once. -/
def timerFire (s : State) : State :=
  if s.timerPending then { s with timerPending := false, showBanner := true }
  else s

/-- `handleBeforeInstallPrompt` (lines 61-65): when the listener is attached,
`e.preventDefault()`, `setDeferredPrompt(e)`, `setShowBanner(true)`. The
returned boolean records whether `preventDefault` was called on the event. -/
def handleBeforeInstallPrompt (h : Nat) (s : State) : State × Bool :=
  if s.listenersAttached then
    ({ s with deferredPrompt := some h, showBanner := true }, true)
  else (s, false)

/-- `handleInstalled` (lines 69-73): when the listener is attached, write the
durable installed marker, hide the banner and drop the captured handle. -/
def handleInstalled (s : State) : State :=
  if s.listenersAttached then
    { s with localStore := s.localStore.setItem INSTALLED_KEY "1",
             showBanner := false, deferredPrompt := none }
  else s

/-- Resolution of `deferredPrompt.userChoice` (lines 88-95): the promise
resolves with outcome `accepted`, with outcome `dismissed`, with a missing
outcome (`choice?.outcome` undefined), or rejects. -/
inductive ChoiceResult where
  | accepted
  | dismissed
  | missingOutcome
  | rejected
deriving Repr, DecidableEq

/-- Observable effect of one press of the install button: either `prompt()`
was invoked on the captured handle, or the textual fallback instruction was
shown via `alert` (line 104). -/
inductive InstallEffect where
  | prompted (handle : Nat)
  | alertShown
deriving Repr, DecidableEq

/-- `handleInstallClick` (lines 83-105): with a captured handle, call
`prompt()` and await `userChoice`; only an `accepted` outcome writes the
durable installed marker and hides the banner, a rejected promise is swallowed
by the `catch`, and the `finally` clears the handle in every case. Without a
handle, show the fallback instruction. -/
def handleInstallClick (choice : ChoiceResult) (s : State) : State × InstallEffect :=
  match s.deferredPrompt with
  | some h =>
    let s1 :=
      match choice with
      | ChoiceResult.accepted =>
        { s with localStore := s.localStore.setItem INSTALLED_KEY "1",
                 showBanner := false }
      | _ => s
    ({ s1 with deferredPrompt := none }, InstallEffect.prompted h)
  | none => (s, InstallEffect.alertShown)

/-- `handleDismissForSession` (lines 107-110): write the session dismissal
marker and hide the banner. -/
def handleDismissForSession (s : State) : State :=
  { s with sessionStore := s.sessionStore.setItem HIDE_SESSION_KEY "1",
           showBanner := false }

/-- `handleAlreadyInstalled` (lines 112-116): write the durable installed
marker and hide the banner. -/
def handleAlreadyInstalled (s : State) : State :=
  { s with localStore := s.localStore.setItem INSTALLED_KEY "1",
           showBanner := false }

/-- The effect cleanup (lines 76-80): `clearTimeout` and both
`removeEventListener` calls. -/
def cleanup (s : State) : State :=
  { s with timerPending := false, listenersAttached := false }

/-- The render guard (lines 118-119): the banner markup is rendered iff
`settings.enablePWABanner` and `showBanner` both hold. -/
def rendersBanner (enabled : Bool) (s : State) : Bool :=
  enabled && s.showBanner

/-- The event alphabet driving one engine instance: the mount evaluation (with
the standalone detection result and the user-agent string of this load), the
reveal timer firing, the two window events, the three user actions (with the
resolution of the user choice for the install button), and teardown. -/
inductive Event where
  | mountEvaluation (standalone : Bool) (ua : String)
  | timerFires
  | beforeInstallPrompt (handle : Nat)
  | appInstalled
  | installClick (choice : ChoiceResult)
  | dismissForSession
  | alreadyInstalledClick
  | teardown
deriving Repr, DecidableEq

/-- One engine step. The window events act through their handlers (which are
inert once the listeners are detached, and the timer is inert once cleared or
fired); the three user actions require the banner to actually be rendered,
since their buttons only exist in the rendered markup. -/
def step (enabled : Bool) (s : State) : Event → State
  | Event.mountEvaluation standalone ua => mount enabled standalone ua s
  | Event.timerFires => timerFire s
  | Event.beforeInstallPrompt h => (handleBeforeInstallPrompt h s).1
  | Event.appInstalled => handleInstalled s
  | Event.installClick c =>
    if rendersBanner enabled s then (handleInstallClick c s).1 else s
  | Event.dismissForSession =>
    if rendersBanner enabled s then handleDismissForSession s else s
  | Event.alreadyInstalledClick =>
    if rendersBanner enabled s then handleAlreadyInstalled s else s
  | Event.teardown => cleanup s

/-- Run a sequence of engine steps. -/
def run (enabled : Bool) (s : State) (es : List Event) : State :=
  es.foldl (step enabled) s

/-- Restriction of an event alphabet: every mount evaluation in scope reports
the given standalone detection result. Non-mount events are unrestricted. -/
def mountStandaloneIs (b : Bool) : Event → Bool
  | Event.mountEvaluation st _ => st == b
  | _ => true

/-! ### No-op lemmas: a dormant state is a fixed point of every step -/

/-- With `enablePWABanner` false the mount effect returns at its first guard. -/
lemma mount_noop_of_disabled (standalone : Bool) (ua : String) (s : State) :
    mount false standalone ua s = s := by
  simp [mount]

/-- In standalone display mode the mount effect returns at its second guard. -/
lemma mount_noop_of_standalone (enabled : Bool) (ua : String) (s : State) :
    mount enabled true ua s = s := by
  cases enabled <;> simp [mount]

/-- With the durable installed marker present the mount effect does nothing. -/
lemma mount_noop_of_installed (enabled standalone : Bool) (ua : String) (s : State)
    (h : s.localStore.getItem INSTALLED_KEY = some "1") :
    mount enabled standalone ua s = s := by
  cases enabled <;> cases standalone <;> simp [mount, h]

/-- With the session dismissal marker present the mount effect does nothing. -/
lemma mount_noop_of_session (enabled standalone : Bool) (ua : String) (s : State)
    (h : s.sessionStore.getItem HIDE_SESSION_KEY = some "1") :
    mount enabled standalone ua s = s := by
  cases enabled <;> cases standalone <;> simp [mount, h]

/-- A dormant state (banner hidden, no pending timer, no attached listeners)
is left unchanged by every event whose mount evaluation would do nothing. -/
lemma step_noop (enabled : Bool) (s : State) (e : Event)
    (hb : s.showBanner = false) (ht : s.timerPending = false)
    (hl : s.listenersAttached = false)
    (hm : ∀ st ua, e = Event.mountEvaluation st ua → mount enabled st ua s = s) :
    step enabled s e = s := by
  cases e with
  | mountEvaluation st ua => exact hm st ua rfl
  | timerFires => simp [step, timerFire, ht]
  | beforeInstallPrompt h => simp [step, handleBeforeInstallPrompt, hl]
  | appInstalled => simp [step, handleInstalled, hl]
  | installClick c => simp [step, rendersBanner, hb]
  | dismissForSession => simp [step, rendersBanner, hb]
  | alreadyInstalledClick => simp [step, rendersBanner, hb]
  | teardown => cases s; simp_all [step, cleanup]

/-- A dormant state is a fixed point of every event sequence whose mount
evaluations would all do nothing on it. -/
lemma run_fixed (enabled : Bool) (s : State) (es : List Event)
    (hb : s.showBanner = false) (ht : s.timerPending = false)
    (hl : s.listenersAttached = false)
    (hm : ∀ st ua, Event.mountEvaluation st ua ∈ es → mount enabled st ua s = s) :
    run enabled s es = s := by
  induction es with
  | nil => rfl
  | cons e es ih =>
    have h1 : step enabled s e = s := by
      refine step_noop enabled s e hb ht hl ?_
      intro st ua he
      exact hm st ua (by rw [← he]; exact List.mem_cons_self e es)
    have h2 : run enabled s (e :: es) = run enabled (step enabled s e) es := by
      simp [run]
    rw [h2, h1]
    exact ih (fun st ua hmem => hm st ua (List.mem_cons_of_mem e hmem))

/-- Writing a key makes `getItem` on that key return the written value. -/
lemma getItem_setItem (st : Store) (k v : String) :
    (st.setItem k v).getItem k = some v := by
  simp [Store.setItem, Store.getItem, List.find?]

/-- An empty storage area holds no key. -/
lemma getItem_nil (k : String) : Store.getItem [] k = none := rfl

/-! ### Concrete fixtures used by witnesses and counterexamples -/

/-- A non-iOS user agent string, as reported by an Android Chrome browser. -/
def demoUA : String := "mozilla/5.0 (linux; android 13) chrome"

/-- The state right after a mount evaluation on an enabled, non-standalone,
flag-free load: banner still hidden, reveal timer pending, listeners attached. -/
def mountedState : State :=
  run true (initState [] []) [Event.mountEvaluation false demoUA]

/-- `mountedState` after the `beforeinstallprompt` event captured handle 7:
banner visible, handle held, reveal timer still pending. -/
def promptedState : State :=
  (handleBeforeInstallPrompt 7 mountedState).1

/-! ### Claims -/

/-- C1: the claim says that once the durable installed marker is set the
banner can never become visible again, and in particular that no
still-pending delayed-reveal timer may re-reveal it after the
install-completion handler ran. The code violates this: `handleInstalled`
hides the banner and writes the marker but does not clear the 1200 ms reveal
timeout, so on the trace mount → `appinstalled` → timer the timer callback
sets `showBanner` back to `true` while the marker is `"1"`, and the banner is
rendered. -/
theorem c1_installed_marker_timer_reveals :
    ((run true (initState [] []) [Event.mountEvaluation false demoUA,
        Event.appInstalled]).localStore.getItem INSTALLED_KEY = some "1")
    ∧ (run true (initState [] []) [Event.mountEvaluation false demoUA,
        Event.appInstalled]).showBanner = false
    ∧ (run true (initState [] []) [Event.mountEvaluation false demoUA,
        Event.appInstalled]).timerPending = true
    ∧ (run true (initState [] []) [Event.mountEvaluation false demoUA,
        Event.appInstalled, Event.timerFires]).localStore.getItem INSTALLED_KEY = some "1"
    ∧ (run true (initState [] []) [Event.mountEvaluation false demoUA,
        Event.appInstalled, Event.timerFires]).showBanner = true
    ∧ rendersBanner true (run true (initState [] []) [Event.mountEvaluation false demoUA,
        Event.appInstalled, Event.timerFires]) = true :=
  ⟨rfl, rfl, rfl, rfl, rfl, rfl⟩

/-- C2 counterexample: the claim says `handleBeforeInstallPrompt` cancels the
pending fixed-delay reveal timer. It does not: after a mount the timer is
pending, it is still pending after the handler runs, and observably so — if
the user then dismisses for the session, the uncancelled timer fires and
makes the banner visible again. -/
theorem c2_timer_not_cancelled :
    mountedState.timerPending = true
    ∧ (handleBeforeInstallPrompt 7 mountedState).1.timerPending = true
    ∧ (step true (step true (step true mountedState (Event.beforeInstallPrompt 7))
        Event.dismissForSession) Event.timerFires).showBanner = true :=
  ⟨rfl, rfl, rfl⟩

/-- C2 (amended): while the listeners are attached, the
`beforeinstallprompt` handler calls `preventDefault` on the event, captures
the handle into `deferredPrompt`, and reveals the prompt immediately; the
pending fixed-delay reveal timer is left unchanged (not cancelled). -/
theorem c2_before_install_prompt_handler (h : Nat) (s : State)
    (hl : s.listenersAttached = true) :
    (handleBeforeInstallPrompt h s).2 = true
    ∧ (handleBeforeInstallPrompt h s).1.deferredPrompt = some h
    ∧ (handleBeforeInstallPrompt h s).1.showBanner = true
    ∧ (handleBeforeInstallPrompt h s).1.timerPending = s.timerPending := by
  simp [handleBeforeInstallPrompt, hl]

/-- C2 witness: the amended handler behaviour at the concrete mounted state. -/
theorem c2_before_install_prompt_handler_witness :
    (handleBeforeInstallPrompt 7 mountedState).2 = true
    ∧ (handleBeforeInstallPrompt 7 mountedState).1.deferredPrompt = some 7
    ∧ (handleBeforeInstallPrompt 7 mountedState).1.showBanner = true
    ∧ (handleBeforeInstallPrompt 7 mountedState).1.timerPending = mountedState.timerPending :=
  c2_before_install_prompt_handler 7 mountedState rfl

/-- C3: with `enablePWABanner` false the engine performs no work — any event
sequence leaves the page-load state exactly as it started, the banner never
becomes visible, and the component renders nothing in any state. -/
theorem c3_disabled_engine_inert (ls ss : Store) (es : List Event) (s : State) :
    run false (initState ls ss) es = initState ls ss
    ∧ (run false (initState ls ss) es).showBanner = false
    ∧ rendersBanner false s = false := by
  have h : run false (initState ls ss) es = initState ls ss := by
    refine run_fixed false (initState ls ss) es rfl rfl rfl ?_
    intro st ua _
    exact mount_noop_of_disabled st ua (initState ls ss)
  exact ⟨h, by rw [h]; rfl, by simp [rendersBanner]⟩

/-- C4: on a page load whose standalone detection (the display-mode media
query, or the legacy `navigator.standalone` property when the query returns
false) reports standalone mode, the prompt is never revealed: any event
sequence whose mount evaluations carry that detection result keeps the banner
hidden, for every enabled setting and every content of the two storage
areas. -/
theorem c4_standalone_never_revealed (mm nav : Except Unit Bool) (enabled : Bool)
    (ls ss : Store) (es : List Event)
    (hsa : isStandalone mm nav = true)
    (hall : es.all (mountStandaloneIs (isStandalone mm nav)) = true) :
    (run enabled (initState ls ss) es).showBanner = false := by
  have h : run enabled (initState ls ss) es = initState ls ss := by
    refine run_fixed enabled (initState ls ss) es rfl rfl rfl ?_
    intro st ua hmem
    have h1 : mountStandaloneIs (isStandalone mm nav) (Event.mountEvaluation st ua) = true := by
      have := List.all_eq_true.mp hall
      exact this _ hmem
    have h2 : st = true := by
      rw [hsa] at h1
      simpa [mountStandaloneIs] using h1
    rw [h2]
    exact mount_noop_of_standalone enabled ua (initState ls ss)
  rw [h]
  rfl

/-- C4 witness: with the display-mode query reporting standalone, a load that
mounts, lets the timer fire, receives the availability event and the
completion event still never shows the banner. -/
theorem c4_standalone_never_revealed_witness :
    (run true (initState [] []) [Event.mountEvaluation true demoUA, Event.timerFires,
      Event.beforeInstallPrompt 3, Event.appInstalled]).showBanner = false :=
  c4_standalone_never_revealed (Except.ok true) (Except.ok false) true [] []
    [Event.mountEvaluation true demoUA, Event.timerFires,
      Event.beforeInstallPrompt 3, Event.appInstalled]
    rfl rfl

/-- C5: with the session dismissal marker (`pwa_hide_session_v1 = "1"`) set at
mount evaluation, no event sequence of the load reveals the prompt (the state
is left exactly as it started); in a fresh session, whose session store starts
empty, a load with the durable installed marker absent, `enabled` true and
standalone detection false becomes visible again after the reveal timer
fires. -/
theorem c5_session_dismissal (enabled : Bool) (ls ls2 ss : Store)
    (es : List Event) (ua : String)
    (hs : ss.getItem HIDE_SESSION_KEY = some "1")
    (hni : ls2.getItem INSTALLED_KEY ≠ some "1") :
    run enabled (initState ls ss) es = initState ls ss
    ∧ (run enabled (initState ls ss) es).showBanner = false
    ∧ (run true (initState ls2 [])
        [Event.mountEvaluation false ua, Event.timerFires]).showBanner = true := by
  have h : run enabled (initState ls ss) es = initState ls ss := by
    refine run_fixed enabled (initState ls ss) es rfl rfl rfl ?_
    intro st ua2 _
    exact mount_noop_of_session enabled st ua2 (initState ls ss) hs
  refine ⟨h, by rw [h]; rfl, ?_⟩
  simp [run, step, mount, timerFire, initState, hni, getItem_nil]

/-- C5 witness: the suppression at a concrete dismissed session and the
fresh-session re-reveal at empty stores. -/
theorem c5_session_dismissal_witness :
    run true (initState [] [(HIDE_SESSION_KEY, "1")])
      [Event.mountEvaluation false demoUA, Event.timerFires]
      = initState [] [(HIDE_SESSION_KEY, "1")]
    ∧ (run true (initState [] [(HIDE_SESSION_KEY, "1")])
        [Event.mountEvaluation false demoUA, Event.timerFires]).showBanner = false
    ∧ (run true (initState [] [])
        [Event.mountEvaluation false demoUA, Event.timerFires]).showBanner = true :=
  c5_session_dismissal true [] [] [(HIDE_SESSION_KEY, "1")]
    [Event.mountEvaluation false demoUA, Event.timerFires] demoUA
    rfl (by simp [Store.getItem])

/-- C6: the captured install handle is single-use. With a handle present,
pressing Install calls `prompt()` on that handle and clears it whatever the
user-choice resolution is; a second press without a new availability event
does not prompt again and shows the textual fallback instruction, changing
nothing; and from any state without a handle, Install just shows the fallback
instruction. -/
theorem c6_deferred_prompt_single_use (s : State) (h : Nat) (c c' : ChoiceResult)
    (hp : s.deferredPrompt = some h) :
    (handleInstallClick c s).2 = InstallEffect.prompted h
    ∧ (handleInstallClick c s).1.deferredPrompt = none
    ∧ handleInstallClick c' (handleInstallClick c s).1
        = ((handleInstallClick c s).1, InstallEffect.alertShown)
    ∧ ∀ s2 : State, s2.deferredPrompt = none →
        handleInstallClick c' s2 = (s2, InstallEffect.alertShown) := by
  refine ⟨?_, ?_, ?_, ?_⟩
  · cases c <;> simp [handleInstallClick, hp]
  · cases c <;> simp [handleInstallClick, hp]
  · cases c <;> simp [handleInstallClick, hp]
  · intro s2 h2
    simp [handleInstallClick, h2]

/-- C6 witness: single use of handle 7 at the concrete prompted state, with
an accepted first press and a dismissed second press. -/
theorem c6_deferred_prompt_single_use_witness :
    (handleInstallClick ChoiceResult.accepted promptedState).2 = InstallEffect.prompted 7
    ∧ (handleInstallClick ChoiceResult.accepted promptedState).1.deferredPrompt = none
    ∧ handleInstallClick ChoiceResult.dismissed
        (handleInstallClick ChoiceResult.accepted promptedState).1
        = ((handleInstallClick ChoiceResult.accepted promptedState).1, InstallEffect.alertShown)
    ∧ ∀ s2 : State, s2.deferredPrompt = none →
        handleInstallClick ChoiceResult.dismissed s2 = (s2, InstallEffect.alertShown) :=
  c6_deferred_prompt_single_use promptedState 7 ChoiceResult.accepted
    ChoiceResult.dismissed rfl

/-- C7: the "already installed" self-report and an accepted install both
write the durable marker `pwa_installed_v1 = "1"` and hide the banner; and on
a fresh load whose durable store already carries the marker, every event
sequence leaves the state exactly as it started (the mount evaluation returns
before scheduling anything), so the banner is never revealed again. -/
theorem c7_durable_installed_flag (s t : State) (h : Nat) (enabled : Bool)
    (ls ss : Store) (es : List Event)
    (hp : t.deferredPrompt = some h)
    (hflag : ls.getItem INSTALLED_KEY = some "1") :
    (handleAlreadyInstalled s).localStore.getItem INSTALLED_KEY = some "1"
    ∧ (handleAlreadyInstalled s).showBanner = false
    ∧ (handleInstallClick ChoiceResult.accepted t).1.localStore.getItem INSTALLED_KEY = some "1"
    ∧ (handleInstallClick ChoiceResult.accepted t).1.showBanner = false
    ∧ run enabled (initState ls ss) es = initState ls ss
    ∧ (run enabled (initState ls ss) es).showBanner = false := by
  have hrun : run enabled (initState ls ss) es = initState ls ss := by
    refine run_fixed enabled (initState ls ss) es rfl rfl rfl ?_
    intro st ua _
    exact mount_noop_of_installed enabled st ua (initState ls ss) hflag
  refine ⟨?_, rfl, ?_, ?_, hrun, by rw [hrun]; rfl⟩
  · exact getItem_setItem s.localStore INSTALLED_KEY "1"
  · simp [handleInstallClick, hp, getItem_setItem]
  · simp [handleInstallClick, hp]

/-- C7 witness: both marker-writing actions at concrete states and the
suppression of a whole concrete load whose durable store holds the marker. -/
theorem c7_durable_installed_flag_witness :
    (handleAlreadyInstalled mountedState).localStore.getItem INSTALLED_KEY = some "1"
    ∧ (handleAlreadyInstalled mountedState).showBanner = false
    ∧ (handleInstallClick ChoiceResult.accepted promptedState).1.localStore.getItem INSTALLED_KEY = some "1"
    ∧ (handleInstallClick ChoiceResult.accepted promptedState).1.showBanner = false
    ∧ run true (initState [(INSTALLED_KEY, "1")] [])
        [Event.mountEvaluation false demoUA, Event.timerFires,
          Event.beforeInstallPrompt 2, Event.appInstalled]
        = initState [(INSTALLED_KEY, "1")] []
    ∧ (run true (initState [(INSTALLED_KEY, "1")] [])
        [Event.mountEvaluation false demoUA, Event.timerFires,
          Event.beforeInstallPrompt 2, Event.appInstalled]).showBanner = false :=
  c7_durable_installed_flag mountedState promptedState 7 true
    [(INSTALLED_KEY, "1")] []
    [Event.mountEvaluation false demoUA, Event.timerFires,
      Event.beforeInstallPrompt 2, Event.appInstalled]
    rfl rfl

/-- C8: all failure paths degrade to a safe default. A throwing display-mode
media query makes the standalone check false whatever the legacy property
would say; a throwing legacy property (reached when the query returns false)
also makes it false; a rejected `userChoice` promise is swallowed — the only
state change of the install action is clearing the handle (`prompt()` was
still called on it) — and the prompt afterwards remains dismissible: the
dismiss action still hides it and records the session marker. -/
theorem c8_failures_safe (nav : Except Unit Bool) (s : State) (h : Nat)
    (hp : s.deferredPrompt = some h) :
    isStandalone (Except.error ()) nav = false
    ∧ isStandalone (Except.ok false) (Except.error ()) = false
    ∧ (handleInstallClick ChoiceResult.rejected s).1 = { s with deferredPrompt := none }
    ∧ (handleInstallClick ChoiceResult.rejected s).2 = InstallEffect.prompted h
    ∧ (handleDismissForSession (handleInstallClick ChoiceResult.rejected s).1).showBanner = false
    ∧ (handleDismissForSession
        (handleInstallClick ChoiceResult.rejected s).1).sessionStore.getItem
          HIDE_SESSION_KEY = some "1" := by
  refine ⟨rfl, rfl, ?_, ?_, ?_, ?_⟩
  · simp [handleInstallClick, hp]
  · simp [handleInstallClick, hp]
  · rfl
  · simp [handleDismissForSession, getItem_setItem]

/-- C8 witness: the safe defaults at a throwing query, a throwing legacy
property, and a rejected install choice at the concrete prompted state. -/
theorem c8_failures_safe_witness :
    isStandalone (Except.error ()) (Except.ok true) = false
    ∧ isStandalone (Except.ok false) (Except.error ()) = false
    ∧ (handleInstallClick ChoiceResult.rejected promptedState).1
        = { promptedState with deferredPrompt := none }
    ∧ (handleInstallClick ChoiceResult.rejected promptedState).2 = InstallEffect.prompted 7
    ∧ (handleDismissForSession
        (handleInstallClick ChoiceResult.rejected promptedState).1).showBanner = false
    ∧ (handleDismissForSession
        (handleInstallClick ChoiceResult.rejected promptedState).1).sessionStore.getItem
          HIDE_SESSION_KEY = some "1" :=
  c8_failures_safe (Except.ok true) promptedState 7 rfl

/-- C9: the effect cleanup clears the reveal timeout and detaches both window
listeners, and afterwards the stale callbacks are inert: the timer callback,
the `beforeinstallprompt` handler (which then also calls no `preventDefault`)
and the `appinstalled` handler all leave the cleaned-up state unchanged. -/
theorem c9_teardown_inert (s : State) (h : Nat) :
    (cleanup s).timerPending = false
    ∧ (cleanup s).listenersAttached = false
    ∧ timerFire (cleanup s) = cleanup s
    ∧ (handleBeforeInstallPrompt h (cleanup s)).1 = cleanup s
    ∧ (handleBeforeInstallPrompt h (cleanup s)).2 = false
    ∧ handleInstalled (cleanup s) = cleanup s :=
  ⟨rfl, rfl, rfl, rfl, rfl, rfl⟩

/-- C10: with a handle present and any resolution of the user choice other
than `accepted` (dismissed, missing outcome, or rejected promise), the
install action only clears the handle: the whole rest of the state — banner
visibility, both storage areas, the iOS flag, timer and listeners — is
exactly as before, and `prompt()` was called on the handle. -/
theorem c10_nonaccepted_install_frame (s : State) (h : Nat) (c : ChoiceResult)
    (hp : s.deferredPrompt = some h) (hc : c ≠ ChoiceResult.accepted) :
    (handleInstallClick c s).1 = { s with deferredPrompt := none }
    ∧ (handleInstallClick c s).1.showBanner = s.showBanner
    ∧ (handleInstallClick c s).1.localStore = s.localStore
    ∧ (handleInstallClick c s).1.sessionStore = s.sessionStore
    ∧ (handleInstallClick c s).1.isIOS = s.isIOS
    ∧ (handleInstallClick c s).1.timerPending = s.timerPending
    ∧ (handleInstallClick c s).1.listenersAttached = s.listenersAttached
    ∧ (handleInstallClick c s).2 = InstallEffect.prompted h := by
  cases c with
  | accepted => exact absurd rfl hc
  | dismissed => simp [handleInstallClick, hp]
  | missingOutcome => simp [handleInstallClick, hp]
  | rejected => simp [handleInstallClick, hp]

/-- C10 witness: the frame property at the concrete prompted state with a
dismissed user choice. -/
theorem c10_nonaccepted_install_frame_witness :
    (handleInstallClick ChoiceResult.dismissed promptedState).1
        = { promptedState with deferredPrompt := none }
    ∧ (handleInstallClick ChoiceResult.dismissed promptedState).1.showBanner
        = promptedState.showBanner
    ∧ (handleInstallClick ChoiceResult.dismissed promptedState).1.localStore
        = promptedState.localStore
    ∧ (handleInstallClick ChoiceResult.dismissed promptedState).1.sessionStore
        = promptedState.sessionStore
    ∧ (handleInstallClick ChoiceResult.dismissed promptedState).1.isIOS
        = promptedState.isIOS
    ∧ (handleInstallClick ChoiceResult.dismissed promptedState).1.timerPending
        = promptedState.timerPending
    ∧ (handleInstallClick ChoiceResult.dismissed promptedState).1.listenersAttached
        = promptedState.listenersAttached
    ∧ (handleInstallClick ChoiceResult.dismissed promptedState).2
        = InstallEffect.prompted 7 :=
  c10_nonaccepted_install_frame promptedState 7 ChoiceResult.dismissed rfl
    (by decide)

end PWABanner
